import Mathlib

/-!
Shallow embedding of the PBFT consensus core of `consensus/pbft/core/core.go`
(package `core`), together with the parts of the `pbft` package it consumes.
Go `*big.Int` fields of wire-level views are modelled as `Option Nat` so that a
`nil` (absent) inner field is distinguishable from a present value; the core's
own `viewNumber`/`sequence` counters, which are always allocated, are plain
`Nat`.  Stateful methods are embedded as explicit state-passing functions; the
externally observable effects of a run of `commit` (the host commit hand-off,
the consensus-log append, the state changes with their backlog drains) are
recorded in an action trace.
-/

namespace PBFTCore

/-- Replica states, from the constant block of `core.go`
(`StateAcceptRequest`, `StatePreprepared`, `StatePrepared`, `StateCommitted`,
`StateCheckpointReady`). -/
inductive State where
  | acceptRequest
  | preprepared
  | prepared
  | committed
  | checkpointReady
deriving DecidableEq, Repr

/-- A consensus view `(view_number, sequence)` as carried on the wire
(`pbft.View`, two `*big.Int` fields).  Either pointer may be `nil` in a
malicious message, hence `Option Nat`. -/
structure View where
  viewNumber : Option Nat
  sequence : Option Nat
deriving DecidableEq, Repr

/-- The subject voted on during PREPARE and COMMIT (`pbft.Subject`):
a view and a digest. -/
structure Subject where
  view : View
  digest : List Nat
deriving DecidableEq, Repr

/-- Header of a proposal (`pbft.ProposalHeader`): sequence, parent hash and
data hash, as populated by `makeProposal` in `core.go`. -/
structure ProposalHeader where
  sequence : Nat
  parentHash : Nat
  dataHash : Nat
deriving DecidableEq, Repr

/-- A proposal (`pbft.Proposal`): a header and an opaque payload. -/
structure Proposal where
  header : ProposalHeader
  payload : List Nat
deriving DecidableEq, Repr

/-- A host request (`pbft.Request`): an opaque payload. -/
structure Request where
  payload : List Nat
deriving DecidableEq, Repr

/-- A received PRE-PREPARE (`pbft.Preprepare`): the view it was issued at and
the proposal it carries.  `commit` in `core.go` reads both fields of
`c.current.Preprepare`. -/
structure Preprepare where
  view : View
  proposal : Proposal
deriving DecidableEq, Repr

/-- Modelled from the spec: the per-sequence consensus record `pbft.Log`
(the `pbft` package is not under src; `core.go` reads `ViewNumber`,
`Sequence`, `Preprepare` and the test reads `Prepares`/`Commits`).  Per the
spec's PerSequenceLog it holds the view coordinates, the optional
pre-prepare, and the prepare/commit vote sets (one entry per validator
address, kept here as duplicate-free lists of addresses). -/
structure Log where
  viewNumber : Nat
  sequence : Nat
  preprepare : Option Preprepare
  prepares : List Nat
  commits : List Nat
deriving DecidableEq, Repr

/-- Modelled from the spec: the host capability surface `pbft.Backend`
(§4.6 of the spec; the interface itself is not under src).  Only the
capabilities the embedded code consumes are kept: identity, validator-set
size, the deterministic payload hash, proposer lookup, and the commit
hand-off, whose verdict (`commit(Proposal) → Result`, "may reject") is
modelled as a Boolean acceptance function. -/
structure Backend where
  address : Nat
  validatorsSize : Nat
  hash : List Nat → Nat
  isProposer : Bool
  commitResult : Proposal → Bool

/-- The replica core (`type core struct` in `core.go`).  The logger, event
subscription and mutexes carry no consensus state and are omitted; the
backend is passed explicitly to the functions that consume it.  `current`
and `subject` are `nil` until the first pre-prepare is accepted, hence
`Option`.  `N` and `F` are `int64` in the source, hence `Int`. -/
structure Core where
  address : Nat
  N : Int
  F : Int
  state : State
  sequence : Nat
  viewNumber : Nat
  completed : Bool
  subject : Option Subject
  backlogs : List (Nat × List Nat)
  current : Option Log
  consensusLogs : List Log

/-- `New` from `core.go`: construct a core from a backend.  The source sets
`f := math.Ceil(float64(n)/3) - 1`; for a set size `n ≥ 0` the float
computation is exact and `⌈n/3⌉ = (n+2)/3` in natural-number division, so
`F` is embedded as `((n+2)/3 : Nat) - 1` cast to `Int` (which is `-1` at
`n = 0`, as in the source).  `sequence` and `viewNumber` are fresh zero
big-ints; `completed`, `subject`, `current` and `consensusLogs` take Go zero
values; `backlogs` is a fresh empty map. -/
def New (backend : Backend) : Core :=
  { address := backend.address
    N := (backend.validatorsSize : Int)
    F := (((backend.validatorsSize + 2) / 3 : Nat) : Int) - 1
    state := State.acceptRequest
    sequence := 0
    viewNumber := 0
    completed := false
    subject := none
    backlogs := []
    current := none
    consensusLogs := [] }

/-- Modelled from the spec: `processBacklog` is not under src.  Per §4.2 and
§4.5 the drain only re-injects deferred messages into the event loop and
performs no synchronous change to the core state, so it is the identity on
the core; the fact that a drain ran is recorded by `setState` in its
Boolean result and in the action trace. -/
def processBacklog (c : Core) : Core := c

/-- `setState` from `core.go`: assign the new state and run the backlog
drain, but only when the state actually changes.  The Boolean result
records whether `processBacklog` ran. -/
def setState (s : State) (c : Core) : Core × Bool :=
  if c.state ≠ s then (processBacklog { c with state := s }, true) else (c, false)

/-- Externally observable actions of a run of the core: a state assignment
(with whether the backlog drain ran), the hand-off of a proposal to the
host's commit (with the host's verdict and the replica state at the moment
of the call), a consensus-log append, and a broadcast. -/
inductive Action where
  | stateChange (target : State) (drained : Bool)
  | hostCommit (p : Proposal) (accepted : Bool) (stateAt : State)
  | appendLog (l : Log)
  | broadcastMsg (code : Nat) (sub : Option Subject)
deriving DecidableEq, Repr

/-- Message code of a COMMIT broadcast (wire table of §6: pre-prepare 0,
prepare 1, commit 2). -/
def msgCommitCode : Nat := 2

/-- Matches the `Action.hostCommit` constructor. -/
def isHostCommit : Action → Bool
  | Action.hostCommit _ _ _ => true
  | _ => false

/-- Matches the `Action.appendLog` constructor. -/
def isAppendLog : Action → Bool
  | Action.appendLog _ => true
  | _ => false

/-- `commit` from `core.go`: set state to `StateCommitted`, hand the current
pre-prepare's proposal to `backend.Commit` (whose return value the source
does not inspect), append `c.current` to `consensusLogs`, copy the current
log's view number and sequence into the core, set `completed`, and set state
to `StateAcceptRequest`.  The source dereferences `c.current` and
`c.current.Preprepare` unconditionally (a `nil` would panic), so the
embedding is defined only when both are present.  The second component is
the trace of observable actions, in source order. -/
def commit (b : Backend) (c : Core) : Option (Core × List Action) :=
  match c.current with
  | none => none
  | some cur =>
    match cur.preprepare with
    | none => none
    | some pp =>
      let sc := setState State.committed c
      let c1 := sc.1
      let accepted := b.commitResult pp.proposal
      let c2 := { c1 with consensusLogs := c1.consensusLogs ++ [cur] }
      let c3 := { c2 with viewNumber := cur.viewNumber, sequence := cur.sequence,
                          completed := true }
      let sc2 := setState State.acceptRequest c3
      some (sc2.1,
        [Action.stateChange State.committed sc.2,
         Action.hostCommit pp.proposal accepted c1.state,
         Action.appendLog cur,
         Action.stateChange State.acceptRequest sc2.2])

/-- `nextSequence` from `core.go`: the view of the next round, with the same
view number and the incremented sequence.  The source allocates a fresh
big-int for the sum and writes no field of the receiver; the unchanged core
is returned alongside to make that explicit. -/
def nextSequence (c : Core) : View × Core :=
  ({ viewNumber := some c.viewNumber, sequence := some (c.sequence + 1) }, c)

/-- `nextViewNumber` from `core.go`: the view of the next view-change round. -/
def nextViewNumber (c : Core) : View × Core :=
  ({ viewNumber := some (c.viewNumber + 1), sequence := some c.sequence }, c)

/-- `makeProposal` from `core.go`: build a proposal for sequence `seq` from a
request; both `ParentHash` and `DataHash` are `c.backend.Hash(request.Payload)`
and the payload is the request payload.  The backend is passed explicitly. -/
def makeProposal (b : Backend) (seq : Nat) (request : Request) : Proposal :=
  { header := { sequence := seq
                parentHash := b.hash request.payload
                dataHash := b.hash request.payload }
    payload := request.payload }

/-- Error results of message validation (§7 of the spec); only the ones the
embedded checks produce are modelled. -/
inductive PbftError where
  | subjectNotMatched
  | futureMessage
  | oldMessage
deriving DecidableEq, Repr

/-- Modelled from the spec: the subject check shared by PREPARE and COMMIT
handling (`verifyPrepare`/`verifyCommit` are not under src; only
`TestVerifyCommit` is).  Per §4.4 step 4 the incoming subject is compared
against `local.subject` by full structural equality — a `nil` inner field
never equal to a present one — and `SubjectNotMatched` is returned when
they differ. -/
def verifyCommit (c : Core) (sub : Subject) : Option PbftError :=
  if some sub = c.subject then none else some PbftError.subjectNotMatched

/-- Insert a voter address into a vote set: idempotent by address
(spec §4.4, "idempotent by address"; duplicate suppression of §3). -/
def insertVote (a : Nat) (votes : List Nat) : List Nat :=
  if a ∈ votes then votes else votes ++ [a]

/-- Modelled from the spec: PREPARE handling after the validation preamble
(§4.4; `handlePrepare` is not under src).  Insert the sender into
`current.prepares`; if `|prepares| ≥ 2F + 1` and the state is `PREPREPARED`
(or `ACCEPT_REQUEST` with the subject already set), transition to
`PREPARED` and broadcast a COMMIT over the current subject.  A core with no
current log is left unchanged. -/
def handlePrepare (sender : Nat) (c : Core) : Core × List Action :=
  match c.current with
  | none => (c, [])
  | some cur =>
    let cur1 := { cur with prepares := insertVote sender cur.prepares }
    let c1 := { c with current := some cur1 }
    if ((cur1.prepares.length : Int) ≥ 2 * c1.F + 1 ∧
        (c1.state = State.preprepared ∨
          (c1.state = State.acceptRequest ∧ c1.subject ≠ none))) then
      let sc := setState State.prepared c1
      (sc.1, [Action.stateChange State.prepared sc.2,
              Action.broadcastMsg msgCommitCode c1.subject])
    else (c1, [])

/-- Modelled from the spec: COMMIT handling after the validation preamble
(§4.4; `handleCommit` is not under src).  Insert the sender into
`current.commits`; if `|commits| ≥ 2F + 1` and the state is `PREPARED`, run
the commit procedure (`commit` from `core.go`). -/
def handleCommit (b : Backend) (sender : Nat) (c : Core) : Core × List Action :=
  match c.current with
  | none => (c, [])
  | some cur =>
    let cur1 := { cur with commits := insertVote sender cur.commits }
    let c1 := { c with current := some cur1 }
    if ((cur1.commits.length : Int) ≥ 2 * c1.F + 1 ∧ c1.state = State.prepared) then
      match commit b c1 with
      | some r => r
      | none => (c1, [])
    else (c1, [])

/-- A concrete backend over four validators, used by the witnesses. -/
def bT : Backend :=
  { address := 1
    validatorsSize := 4
    hash := fun p => p.length * 31 + 7
    isProposer := true
    commitResult := fun _ => true }

/-- A backend identical to `bT` except that the host rejects every commit. -/
def bRej : Backend := { bT with commitResult := fun _ => false }

/-- A concrete request. -/
def reqT : Request := { payload := [1, 2, 3] }

/-- A concrete proposal built from `reqT`. -/
def propT : Proposal := makeProposal bT 1 reqT

/-- A concrete pre-prepare at view `(0, 0)` carrying `propT`. -/
def ppT : Preprepare :=
  { view := { viewNumber := some 0, sequence := some 0 }, proposal := propT }

/-- A concrete subject at view `(0, 0)` with digest `[1]`. -/
def subjT : Subject :=
  { view := { viewNumber := some 0, sequence := some 0 }, digest := [1] }

/-- A concrete per-sequence log at view `(0, 0)` holding `ppT` and three
recorded votes of each kind. -/
def curT : Log :=
  { viewNumber := 0
    sequence := 0
    preprepare := some ppT
    prepares := [10, 11, 12]
    commits := [10, 11, 12] }

/-- A concrete core (replica 0 of the four-validator system) in state
`PREPARED` over `curT`. -/
def cPrepared : Core :=
  { New bT with state := State.prepared, current := some curT, subject := some subjT }

/-- A concrete core holding a local subject at view `(0, 0)`, used to check
the subject comparison. -/
def cSubj : Core := { New bT with subject := some subjT }

/-- An incoming cross-view subject: view number `1`, sequence `0`, digest
`[1]` (test case 6 of §8: views differ even though sequence and digest
match the local subject). -/
def subjCrossView : Subject :=
  { view := { viewNumber := some 1, sequence := some 0 }, digest := [1] }

/-- The result core of `setState` is the input with the state replaced, and
the drain flag records whether the state changed. -/
theorem setState_eq (s : State) (c : Core) :
    setState s c = ({ c with state := s }, decide (c.state ≠ s)) := by
  obtain ⟨a, n, f, st, seq, vn, comp, subj, bl, cur, logs⟩ := c
  by_cases h : st = s <;> simp [setState, processBacklog, h]

/-- Explicit value of a run of `commit` on a core whose current log holds a
pre-prepare. -/
theorem commit_eq (b : Backend) (c : Core) (cur : Log) (pp : Preprepare)
    (hcur : c.current = some cur) (hpp : cur.preprepare = some pp) :
    commit b c = some
      ({ c with state := State.acceptRequest
                consensusLogs := c.consensusLogs ++ [cur]
                viewNumber := cur.viewNumber
                sequence := cur.sequence
                completed := true },
       [Action.stateChange State.committed (decide (c.state ≠ State.committed)),
        Action.hostCommit pp.proposal (b.commitResult pp.proposal) State.committed,
        Action.appendLog cur,
        Action.stateChange State.acceptRequest true]) := by
  obtain ⟨a, n, f, st, seq, vn, comp, subj, bl, curo, logs⟩ := c
  simp only [Core.mk.injEq] at hcur ⊢
  subst hcur
  simp +decide [commit, hpp, setState_eq]

/-- C1: a core whose current per-sequence log is at view `(v, s)` and holds a
pre-prepare runs `commit` to completion: the proposal is handed to
`host.commit`, exactly one entry — the current log — is appended to the end
of the consensus log, `view_number` becomes `v` and `sequence` becomes `s`,
`completed` becomes `true`, and the core ends in state `ACCEPT_REQUEST`. -/
theorem commit_updates_log_and_state (b : Backend) (c : Core) (cur : Log)
    (pp : Preprepare) (hcur : c.current = some cur) (hpp : cur.preprepare = some pp) :
    ∃ c' tr, commit b c = some (c', tr) ∧
      Action.hostCommit pp.proposal (b.commitResult pp.proposal) State.committed ∈ tr ∧
      c'.consensusLogs = c.consensusLogs ++ [cur] ∧
      c'.viewNumber = cur.viewNumber ∧
      c'.sequence = cur.sequence ∧
      c'.completed = true ∧
      c'.state = State.acceptRequest := by
  refine ⟨_, _, commit_eq b c cur pp hcur hpp, ?_, rfl, rfl, rfl, rfl, rfl⟩
  simp

/-- Witness for C1 at the concrete prepared replica `cPrepared`, whose
current log `curT` sits at view `(0, 0)` and holds the pre-prepare `ppT`. -/
theorem commit_updates_log_and_state_witness :
    ∃ c' tr, commit bT cPrepared = some (c', tr) ∧
      Action.hostCommit ppT.proposal (bT.commitResult ppT.proposal) State.committed ∈ tr ∧
      c'.consensusLogs = cPrepared.consensusLogs ++ [curT] ∧
      c'.viewNumber = curT.viewNumber ∧
      c'.sequence = curT.sequence ∧
      c'.completed = true ∧
      c'.state = State.acceptRequest :=
  commit_updates_log_and_state bT cPrepared curT ppT rfl rfl

/-- C5: one run of the commit procedure hands the proposal to `host.commit`
exactly once, the replica state recorded at that call is `COMMITTED` (set
before the call), and exactly one log entry — the sequence being committed —
is appended alongside. -/
theorem commit_calls_host_once_at_committed (b : Backend) (c : Core) (cur : Log)
    (pp : Preprepare) (hcur : c.current = some cur) (hpp : cur.preprepare = some pp) :
    ∃ c' tr, commit b c = some (c', tr) ∧
      tr.filter isHostCommit =
        [Action.hostCommit pp.proposal (b.commitResult pp.proposal) State.committed] ∧
      tr.filter isAppendLog = [Action.appendLog cur] := by
  refine ⟨_, _, commit_eq b c cur pp hcur hpp, ?_, ?_⟩ <;> rfl

/-- Witness for C5 at the concrete prepared replica `cPrepared`. -/
theorem commit_calls_host_once_at_committed_witness :
    ∃ c' tr, commit bT cPrepared = some (c', tr) ∧
      tr.filter isHostCommit =
        [Action.hostCommit ppT.proposal (bT.commitResult ppT.proposal) State.committed] ∧
      tr.filter isAppendLog = [Action.appendLog curT] :=
  commit_calls_host_once_at_committed bT cPrepared curT ppT rfl rfl

/-- C8: `setState s` leaves the core's state equal to `s` and runs the
backlog drain exactly when `s` differs from the state held before the call;
and the transition to `ACCEPT_REQUEST` at the end of the commit procedure
always drains (the state there is `COMMITTED`). -/
theorem setState_drain_iff (b : Backend) (c : Core) (s : State) (cur : Log)
    (pp : Preprepare) (hcur : c.current = some cur) (hpp : cur.preprepare = some pp) :
    (setState s c).1.state = s ∧
    ((setState s c).2 = true ↔ s ≠ c.state) ∧
    (∃ c' tr, commit b c = some (c', tr) ∧
      Action.stateChange State.acceptRequest true ∈ tr) := by
  refine ⟨?_, ?_, _, _, commit_eq b c cur pp hcur hpp, ?_⟩
  · rw [setState_eq]
  · rw [setState_eq]
    simp [ne_comm]
  · simp

/-- Witness for C8 at the concrete prepared replica `cPrepared`, setting the
already-current state `PREPARED` (so the drain flag is `false`). -/
theorem setState_drain_iff_witness :
    (setState State.prepared cPrepared).1.state = State.prepared ∧
    ((setState State.prepared cPrepared).2 = true ↔ State.prepared ≠ cPrepared.state) ∧
    (∃ c' tr, commit bT cPrepared = some (c', tr) ∧
      Action.stateChange State.acceptRequest true ∈ tr) :=
  setState_drain_iff bT cPrepared State.prepared curT ppT rfl rfl

/-- C3 counterexample: with the rejecting host `bRej`, running `commit` on
the prepared replica `cPrepared` still appends the current log (the
consensus log grows to length 1), still sets `completed`, still ends in
`ACCEPT_REQUEST`, and still advances `view_number`/`sequence` to the
current log's `(0, 0)` — the host's failure verdict is never inspected. -/
theorem commit_host_rejection_cex :
    bRej.commitResult ppT.proposal = false ∧
    (commit bRej cPrepared).map
        (fun r => (r.1.consensusLogs.length, r.1.completed, r.1.state,
                   r.1.viewNumber, r.1.sequence)) =
      some (1, true, State.acceptRequest, 0, 0) :=
  ⟨rfl, rfl⟩

/-- C3 (amended): when `host.commit` returns failure during the commit
procedure, the core ignores the verdict and proceeds exactly as on success:
it appends the current log to the consensus log, advances `view_number` and
`sequence`, sets `completed` to `true`, and transitions to
`ACCEPT_REQUEST`; no failure is surfaced. -/
theorem commit_proceeds_despite_host_rejection (b : Backend) (c : Core) (cur : Log)
    (pp : Preprepare) (hcur : c.current = some cur) (hpp : cur.preprepare = some pp)
    (hrej : b.commitResult pp.proposal = false) :
    ∃ c' tr, commit b c = some (c', tr) ∧
      Action.hostCommit pp.proposal false State.committed ∈ tr ∧
      c'.consensusLogs = c.consensusLogs ++ [cur] ∧
      c'.viewNumber = cur.viewNumber ∧
      c'.sequence = cur.sequence ∧
      c'.completed = true ∧
      c'.state = State.acceptRequest := by
  refine ⟨_, _, commit_eq b c cur pp hcur hpp, ?_, rfl, rfl, rfl, rfl, rfl⟩
  simp [hrej]

/-- Witness for the amended C3 at the rejecting host `bRej`. -/
theorem commit_proceeds_despite_host_rejection_witness :
    ∃ c' tr, commit bRej cPrepared = some (c', tr) ∧
      Action.hostCommit ppT.proposal false State.committed ∈ tr ∧
      c'.consensusLogs = cPrepared.consensusLogs ++ [curT] ∧
      c'.viewNumber = curT.viewNumber ∧
      c'.sequence = curT.sequence ∧
      c'.completed = true ∧
      c'.state = State.acceptRequest :=
  commit_proceeds_despite_host_rejection bRej cPrepared curT ppT rfl rfl rfl

/-- The subject check fails exactly when the incoming subject differs from
the locally stored one. -/
theorem verifyCommit_not_matched_iff (c : Core) (sub : Subject) :
    verifyCommit c sub = some PbftError.subjectNotMatched ↔ ¬ some sub = c.subject := by
  unfold verifyCommit
  split <;> simp_all

/-- C2: against a present local subject, the check returns
`SubjectNotMatched` iff the two subjects are not structurally equal on all
three fields (view number, sequence, digest); in particular an absent
(`nil`) sequence never matches a present one, and a differing view number
alone forces `SubjectNotMatched` even when sequence and digest agree. -/
theorem verify_subject_not_matched_iff (c : Core) (sub self : Subject)
    (hself : c.subject = some self) :
    (verifyCommit c sub = some PbftError.subjectNotMatched ↔
      ¬ (sub.view.viewNumber = self.view.viewNumber ∧
         sub.view.sequence = self.view.sequence ∧
         sub.digest = self.digest)) ∧
    (sub.view.sequence = none → self.view.sequence ≠ none →
      verifyCommit c sub = some PbftError.subjectNotMatched) ∧
    (sub.view.viewNumber ≠ self.view.viewNumber →
      verifyCommit c sub = some PbftError.subjectNotMatched) := by
  obtain ⟨⟨svn, ssq⟩, sd⟩ := sub
  obtain ⟨⟨lvn, lsq⟩, ld⟩ := self
  have hiff : verifyCommit c ⟨⟨svn, ssq⟩, sd⟩ = some PbftError.subjectNotMatched ↔
      ¬ (svn = lvn ∧ ssq = lsq ∧ sd = ld) := by
    rw [verifyCommit_not_matched_iff, hself]
    simp only [Option.some.injEq, Subject.mk.injEq, View.mk.injEq]
    tauto
  refine ⟨hiff, ?_, ?_⟩
  · intro h1 h2
    rw [hiff]
    intro hcon
    exact h2 (hcon.2.1 ▸ h1)
  · intro hv
    rw [hiff]
    intro hcon
    exact hv hcon.1

/-- Witness for C2: the cross-view subject `(1, 0, [1])` against the local
subject `(0, 0, [1])` of `cSubj` (test case 6 of §8). -/
theorem verify_subject_not_matched_iff_witness :
    (verifyCommit cSubj subjCrossView = some PbftError.subjectNotMatched ↔
      ¬ (subjCrossView.view.viewNumber = subjT.view.viewNumber ∧
         subjCrossView.view.sequence = subjT.view.sequence ∧
         subjCrossView.digest = subjT.digest)) ∧
    (subjCrossView.view.sequence = none → subjT.view.sequence ≠ none →
      verifyCommit cSubj subjCrossView = some PbftError.subjectNotMatched) ∧
    (subjCrossView.view.viewNumber ≠ subjT.view.viewNumber →
      verifyCommit cSubj subjCrossView = some PbftError.subjectNotMatched) :=
  verify_subject_not_matched_iff cSubj subjCrossView subjT rfl

/-- C4: with the sender's vote recorded, a transition into `PREPARED` emitted
by PREPARE handling requires at least `2F + 1` recorded prepares, a
transition into `COMMITTED` emitted by COMMIT handling requires at least
`2F + 1` recorded commits, and with at most `2F` votes of the relevant kind
the replica's state does not advance. -/
theorem quorum_guards_transitions (b : Backend) (sender : Nat) (c : Core) (cur : Log)
    (hcur : c.current = some cur) :
    (Action.stateChange State.prepared true ∈ (handlePrepare sender c).2 →
      ((insertVote sender cur.prepares).length : Int) ≥ 2 * c.F + 1) ∧
    (Action.stateChange State.committed true ∈ (handleCommit b sender c).2 →
      ((insertVote sender cur.commits).length : Int) ≥ 2 * c.F + 1) ∧
    (((insertVote sender cur.prepares).length : Int) ≤ 2 * c.F →
      (handlePrepare sender c).1.state = c.state) ∧
    (((insertVote sender cur.commits).length : Int) ≤ 2 * c.F →
      (handleCommit b sender c).1.state = c.state) := by
  refine ⟨?_, ?_, ?_, ?_⟩
  · intro hmem
    simp only [handlePrepare, hcur] at hmem
    split at hmem
    · next hq => exact hq.1
    · simp at hmem
  · intro hmem
    simp only [handleCommit, hcur] at hmem
    split at hmem
    · next hq => exact hq.1
    · simp at hmem
  · intro hle
    simp only [handlePrepare, hcur]
    split
    · next hq => exact absurd hq.1 (by omega)
    · rfl
  · intro hle
    simp only [handleCommit, hcur]
    split
    · next hq => exact absurd hq.1 (by omega)
    · rfl

/-- Witness for C4 at the concrete prepared replica `cPrepared` (current log
`curT`, `F = 1`) with sender address `13`. -/
theorem quorum_guards_transitions_witness :
    (Action.stateChange State.prepared true ∈ (handlePrepare 13 cPrepared).2 →
      ((insertVote 13 curT.prepares).length : Int) ≥ 2 * cPrepared.F + 1) ∧
    (Action.stateChange State.committed true ∈ (handleCommit bT 13 cPrepared).2 →
      ((insertVote 13 curT.commits).length : Int) ≥ 2 * cPrepared.F + 1) ∧
    (((insertVote 13 curT.prepares).length : Int) ≤ 2 * cPrepared.F →
      (handlePrepare 13 cPrepared).1.state = cPrepared.state) ∧
    (((insertVote 13 curT.commits).length : Int) ≤ 2 * cPrepared.F →
      (handleCommit bT 13 cPrepared).1.state = cPrepared.state) :=
  quorum_guards_transitions bT 13 cPrepared curT rfl

/-- C6: for a request accepted in `ACCEPT_REQUEST`, the next-round view has
the incremented sequence and the unchanged view number, the proposal built
for it carries that sequence, a data hash equal to the host's hash of the
request payload, and the request payload itself; and `nextSequence` writes
no field of the core. -/
theorem next_proposal_fields (b : Backend) (c : Core) (req : Request) :
    (nextSequence c).1.sequence = some (c.sequence + 1) ∧
    (nextSequence c).1.viewNumber = some c.viewNumber ∧
    (nextSequence c).2 = c ∧
    (makeProposal b (c.sequence + 1) req).header.sequence = c.sequence + 1 ∧
    (makeProposal b (c.sequence + 1) req).header.dataHash = b.hash req.payload ∧
    (makeProposal b (c.sequence + 1) req).payload = req.payload :=
  ⟨rfl, rfl, rfl, rfl, rfl, rfl⟩

/-- C7: for a validator set of size at least 1, `New` computes
`F = ⌈N/3⌉ − 1` (the middle two conjuncts pin `F + 1` as the integer
ceiling of `N/3`) and the resulting pair satisfies `N ≥ 3F + 1`. -/
theorem new_F_ceiling_quorum (b : Backend) (h : 1 ≤ b.validatorsSize) :
    (New b).F = (((b.validatorsSize + 2) / 3 : Nat) : Int) - 1 ∧
    3 * (New b).F < (New b).N ∧
    (New b).N ≤ 3 * ((New b).F + 1) ∧
    3 * (New b).F + 1 ≤ (New b).N := by
  have hN : (New b).N = (b.validatorsSize : Int) := rfl
  have hF : (New b).F = (((b.validatorsSize + 2) / 3 : Nat) : Int) - 1 := rfl
  refine ⟨hF, ?_, ?_, ?_⟩ <;> rw [hF, hN] <;> omega

/-- Witness for C7 at the four-validator backend `bT` (`F = 1`, `N = 4`). -/
theorem new_F_ceiling_quorum_witness :
    (New bT).F = (((bT.validatorsSize + 2) / 3 : Nat) : Int) - 1 ∧
    3 * (New bT).F < (New bT).N ∧
    (New bT).N ≤ 3 * ((New bT).F + 1) ∧
    3 * (New bT).F + 1 ≤ (New bT).N :=
  new_F_ceiling_quorum bT (by decide)

/-- C9: `makeProposal` sets `parent_hash` equal to `data_hash` — both are the
host's hash of the request payload — so the parent-hash field never
references the parent proposal or block. -/
theorem makeProposal_parentHash_eq_dataHash (b : Backend) (seq : Nat) (req : Request) :
    (makeProposal b seq req).header.parentHash = (makeProposal b seq req).header.dataHash ∧
    (makeProposal b seq req).header.parentHash = b.hash req.payload ∧
    (makeProposal b seq req).header.dataHash = b.hash req.payload :=
  ⟨rfl, rfl, rfl⟩

/-- C10: every core returned by `New` starts in `ACCEPT_REQUEST` with view
number 0, sequence 0, `completed = false`, an empty backlog map and an
empty consensus log. -/
theorem new_initial_fields (b : Backend) :
    (New b).state = State.acceptRequest ∧
    (New b).viewNumber = 0 ∧
    (New b).sequence = 0 ∧
    (New b).completed = false ∧
    (New b).backlogs = [] ∧
    (New b).consensusLogs = [] :=
  ⟨rfl, rfl, rfl, rfl, rfl, rfl⟩

end PBFTCore
